import Mathlib

/-!
Shallow embedding of the TUMAPS2 navigation app.

Sources embedded here:
- the Mapbox helper module (getDirections, geocodeAddress, formatDistance,
  formatDuration, calculateDistance);
- the navigation page component (NavigationState, handleSearch,
  handleStopNavigation, handleStartNavigation, handleSelectRoute, and the
  watchPosition arrival callback).

Numbers coming from the remote API (distances, durations) are modelled as
exact rationals; geographic coordinates, on which the haversine distance is
computed, are modelled as real numbers.
-/

namespace Tumaps

/-! ## JavaScript numeric primitives used by the source -/

/-- `Math.round(q)`: round half towards positive infinity. -/
def jsRound (q : ℚ) : ℤ := ⌊q + 1 / 2⌋

/-- `Math.trunc`-style truncation towards zero (used by the `%` operator). -/
def jsTrunc (q : ℚ) : ℤ := if 0 ≤ q then ⌊q⌋ else ⌈q⌉

/-- The JavaScript `%` operator on numbers: remainder with the sign of the
dividend, `a - b * trunc(a / b)`. -/
def jsMod (a b : ℚ) : ℚ := a - b * (jsTrunc (a / b) : ℚ)

/-- `q.toFixed(1)` for the values arising here: the integer `n` nearest to
`10 * q` (ties towards positive infinity) rendered as `n / 10` with one
decimal digit. -/
def jsToFixed1 (q : ℚ) : String :=
  let n : ℤ := ⌊q * 10 + 1 / 2⌋
  toString (n / 10) ++ "." ++ toString (n % 10)

/-! ## Formatting helpers (source: `formatDistance`, `formatDuration`) -/

/-- Embedding of `formatDistance(meters)`:
`meters < 1000 ? round(meters) + " m" : (meters/1000).toFixed(1) + " km"`. -/
def formatDistance (meters : ℚ) : String :=
  if meters < 1000 then toString (jsRound meters) ++ " m"
  else jsToFixed1 (meters / 1000) ++ " km"

/-- Embedding of `formatDuration(seconds)`: hours = `floor(s / 3600)`,
minutes = `floor((s % 3600) / 60)`; renders `"{h}h {m}min"` when `hours > 0`
and `"{m} min"` otherwise. -/
def formatDuration (seconds : ℚ) : String :=
  let hours : ℤ := ⌊seconds / 3600⌋
  let minutes : ℤ := ⌊jsMod seconds 3600 / 60⌋
  if hours > 0 then toString hours ++ "h " ++ toString minutes ++ "min"
  else toString minutes ++ " min"

/-! ## Data model (source: `types/navigation.ts`) -/

/-- `Coordinates`: a `{lng, lat}` pair in WGS84 degrees. -/
structure Coordinates where
  lng : ℝ
  lat : ℝ

/-- The `maneuver` sub-object of a `RouteStep`. -/
structure Maneuver where
  type : String
  modifier : Option String

/-- `RouteStep`: one maneuver of a route. -/
structure RouteStep where
  instruction : String
  distance : ℚ
  duration : ℚ
  maneuver : Maneuver

/-- `Route`: one candidate route returned by the gateway client. -/
structure Route where
  id : String
  distance : ℚ
  duration : ℚ
  geometry : List (ℚ × ℚ)
  steps : List RouteStep
  isAlternative : Bool

/-! ## Raw remote responses, as the gateway client reads them -/

/-- The `maneuver` object of a raw directions step (`instruction`, `type`,
`modifier` are read from it). -/
structure RawManeuver where
  instruction : String
  type : String
  modifier : Option String

/-- One step of the first leg of a raw route. -/
structure RawStep where
  distance : ℚ
  duration : ℚ
  maneuver : RawManeuver

/-- One leg of a raw route; `steps := none` models a leg object without a
usable `steps` array, on which `leg.steps.map` throws. -/
structure RawLeg where
  steps : Option (List RawStep)

/-- One element of the `routes` array of a raw directions response.
An empty `legs` list models a route on which `route.legs[0]` is undefined,
so that reading `.steps` of it throws. -/
structure RawRoute where
  distance : ℚ
  duration : ℚ
  geometry : List (ℚ × ℚ)
  legs : List RawLeg

/-- Outcome of the `fetch`/`json()` pair in `getDirections`: a transport or
parse failure, or a parsed body whose `routes` field is absent or a list. -/
inductive FetchResult where
  | failure
  | success (routes : Option (List RawRoute))

/-- The per-step mapping inside `getDirections`:
`{instruction, distance, duration, maneuver: {type, modifier}}`. -/
def mapStep (step : RawStep) : RouteStep :=
  { instruction := step.maneuver.instruction
    distance := step.distance
    duration := step.duration
    maneuver := { type := step.maneuver.type, modifier := step.maneuver.modifier } }

/-- The per-route mapping inside `getDirections`.  `none` models the mapping
callback throwing: `route.legs[0]` undefined, or `legs[0].steps` unusable. -/
def mapRoute (index : Nat) (route : RawRoute) : Option Route :=
  match route.legs.head? with
  | none => none
  | some leg =>
    match leg.steps with
    | none => none
    | some rawSteps =>
      some { id := "route-" ++ toString index
             distance := route.distance
             duration := route.duration
             geometry := route.geometry
             steps := rawSteps.map mapStep
             isAlternative := decide (index > 0) }

/-- `data.routes.map((route, index) => ...)`: elements are produced in order
and the first exception aborts the whole mapping (yielding `none`). -/
def mapRoutes : Nat → List RawRoute → Option (List Route)
  | _, [] => some []
  | index, route :: rest =>
    match mapRoute index route with
    | none => none
    | some mapped =>
      match mapRoutes (index + 1) rest with
      | none => none
      | some tail => some (mapped :: tail)

/-- Embedding of `getDirections`, as a function of the remote response:
if `data.routes` exists and is non-empty, map it (an exception anywhere is
caught and yields `[]`); otherwise return `[]`. -/
def getDirections (res : FetchResult) : List Route :=
  match res with
  | .failure => []
  | .success none => []
  | .success (some routes) =>
    if routes.length > 0 then
      match mapRoutes 0 routes with
      | some mapped => mapped
      | none => []
    else []

/-- Outcome of the `fetch`/`json()` pair in `geocodeAddress`: a transport or
parse failure, or the list of `center` coordinates of the `features` array. -/
inductive GeocodeFetch where
  | failure
  | success (centers : List Coordinates)

/-- Embedding of `geocodeAddress`: first feature's center on success,
`null` on no match or any error. -/
def geocodeAddress : GeocodeFetch → Option Coordinates
  | .failure => none
  | .success [] => none
  | .success (c :: _) => some c

/-! ## Haversine distance (source: `calculateDistance`) -/

/-- `Math.atan2(y, x)`: the argument of the complex number `x + y*i`. -/
noncomputable def atan2 (y x : ℝ) : ℝ := Complex.arg ⟨x, y⟩

/-- Embedding of `calculateDistance(coord1, coord2)`: haversine great-circle
distance with mean Earth radius 6371e3 meters. -/
noncomputable def calculateDistance (coord1 coord2 : Coordinates) : ℝ :=
  let R : ℝ := 6371000
  let phi1 := coord1.lat * Real.pi / 180
  let phi2 := coord2.lat * Real.pi / 180
  let dPhi := (coord2.lat - coord1.lat) * Real.pi / 180
  let dLng := (coord2.lng - coord1.lng) * Real.pi / 180
  let a := Real.sin (dPhi / 2) * Real.sin (dPhi / 2) +
    Real.cos phi1 * Real.cos phi2 * Real.sin (dLng / 2) * Real.sin (dLng / 2)
  let c := 2 * atan2 (Real.sqrt a) (Real.sqrt (1 - a))
  R * c

/-! ## Navigation session state (source: `page.tsx`) -/

/-- `NavigationState` from `types/navigation.ts`. -/
structure NavigationState where
  origin : Option Coordinates
  destination : Option Coordinates
  currentLocation : Option Coordinates
  routes : List Route
  selectedRoute : Option Route
  isNavigating : Bool
  currentStepIndex : Nat
  isDarkMode : Bool

/-- The component state relevant to the session controller: the
`NavigationState` plus the input texts, the voice toggle and the
route-panel visibility flag. -/
structure AppState where
  nav : NavigationState
  originInput : String
  destinationInput : String
  isVoiceEnabled : Bool
  showRoutes : Bool

/-- The initial `NavigationState` passed to `useState` in `NavigationApp`. -/
def initialState : NavigationState :=
  { origin := none
    destination := none
    currentLocation := none
    routes := []
    selectedRoute := none
    isNavigating := false
    currentStepIndex := 0
    isDarkMode := false }

/-- The component state at session start. -/
def initialAppState : AppState :=
  { nav := initialState
    originInput := ""
    destinationInput := ""
    isVoiceEnabled := true
    showRoutes := false }

/-- Embedding of `handleStopNavigation`: spreads the previous state, clearing
`isNavigating`, `currentStepIndex`, `routes`, `selectedRoute`, `origin` and
`destination`, then hides the route panel and clears both input texts. -/
def handleStopNavigation (s : AppState) : AppState :=
  { s with
    nav := { s.nav with
      isNavigating := false
      currentStepIndex := 0
      routes := []
      selectedRoute := none
      origin := none
      destination := none }
    showRoutes := false
    originInput := ""
    destinationInput := "" }

/-- Embedding of `handleSearch`, as a function of the two geocoding responses
and the directions response: an early return when either input text is empty;
otherwise, when both geocodes succeed, commit origin/destination, store the
fetched routes, select the first (`routes[0] || null`) and show the panel;
when either geocode fails, nothing is committed. -/
def handleSearch (s : AppState) (originRes destRes : GeocodeFetch)
    (dirRes : FetchResult) : AppState :=
  if s.originInput.isEmpty || s.destinationInput.isEmpty then s
  else
    match geocodeAddress originRes, geocodeAddress destRes with
    | some originCoords, some destCoords =>
      let routes := getDirections dirRes
      { s with
        nav := { s.nav with
          origin := some originCoords
          destination := some destCoords
          routes := routes
          selectedRoute := routes.head? }
        showRoutes := true }
    | _, _ => s

/-- Embedding of `handleStartNavigation`: early return without a selected
route; otherwise set `isNavigating` and reset the step index. -/
def handleStartNavigation (s : AppState) : AppState :=
  match s.nav.selectedRoute with
  | none => s
  | some _ =>
    { s with nav := { s.nav with isNavigating := true, currentStepIndex := 0 } }

/-- Embedding of `handleSelectRoute`. -/
def handleSelectRoute (s : AppState) (route : Route) : AppState :=
  { s with nav := { s.nav with selectedRoute := some route } }

open scoped Classical in
/-- Embedding of the `watchPosition` callback body: store the new location;
then, when origin and destination are set and the current step exists,
compute the distance from the new location to the destination and perform
the same reset as `handleStopNavigation` when it is below 50 meters. -/
noncomputable def watchUpdate (s : AppState) (newLocation : Coordinates) : AppState :=
  let s1 : AppState := { s with nav := { s.nav with currentLocation := some newLocation } }
  match s.nav.origin, s.nav.destination with
  | some _, some dest =>
    match s.nav.selectedRoute with
    | some route =>
      match route.steps.get? s.nav.currentStepIndex with
      | some _ =>
        if calculateDistance newLocation dest < 50 then handleStopNavigation s1
        else s1
      | none => s1
    | none => s1
  | _, _ => s1

/-- User-visible and sensor events that drive the session controller. -/
inductive Event where
  | setOrigin (text : String)
  | setDest (text : String)
  | locate (c : Coordinates)
  | search (originRes destRes : GeocodeFetch) (dirRes : FetchResult)
  | selectRoute (route : Route)
  | startNav
  | stopNav
  | toggleDark
  | watchPos (c : Coordinates)

/-- One step of the session controller: dispatches an event to the handler
embedded from the source.  Input edits are ignored while navigating (the
inputs are disabled); `watchPos` fires only while the position watch is
active (`isNavigating && selectedRoute`). -/
noncomputable def applyEvent (s : AppState) : Event → AppState
  | .setOrigin text =>
    if s.nav.isNavigating then s else { s with originInput := text }
  | .setDest text =>
    if s.nav.isNavigating then s else { s with destinationInput := text }
  | .locate c => { s with nav := { s.nav with currentLocation := some c } }
  | .search originRes destRes dirRes => handleSearch s originRes destRes dirRes
  | .selectRoute route => handleSelectRoute s route
  | .startNav => handleStartNavigation s
  | .stopNav => handleStopNavigation s
  | .toggleDark => { s with nav := { s.nav with isDarkMode := !s.nav.isDarkMode } }
  | .watchPos c =>
    if s.nav.isNavigating && s.nav.selectedRoute.isSome then watchUpdate s c else s

/-- Folding a list of events from a start state. -/
noncomputable def applyEvents (s : AppState) (events : List Event) : AppState :=
  events.foldl applyEvent s

/-- A state is non-idle when it is navigating or already holds candidate
routes. -/
def nonIdle (s : AppState) : Bool :=
  s.nav.isNavigating || !s.nav.routes.isEmpty

/-! ## Well-formedness of raw routes, and concrete sample data -/

/-- A raw route on which the mapping callback of `getDirections` does not
throw and produces a non-empty step list: it has a first leg whose `steps`
array is present and non-empty. -/
def routeMappable (route : RawRoute) : Bool :=
  match route.legs.head? with
  | some leg =>
    match leg.steps with
    | some rawSteps => !rawSteps.isEmpty
    | none => false
  | none => false

/-- A sample well-formed raw directions step. -/
def rawStepSample : RawStep :=
  { distance := 100, duration := 60
    maneuver := { instruction := "Turn left", type := "turn", modifier := some "left" } }

/-- A sample well-formed raw route. -/
def rawRouteSample : RawRoute :=
  { distance := 100, duration := 60, geometry := [(0, 0), (1, 1)]
    legs := [{ steps := some [rawStepSample] }] }

/-- A raw route whose `legs` array is empty, so `route.legs[0].steps` throws. -/
def rawRouteNoLegs : RawRoute :=
  { distance := 100, duration := 60, geometry := [], legs := [] }

/-- A raw route whose first leg carries an empty `steps` array: the mapping
succeeds and produces a `Route` with empty `steps`. -/
def rawRouteEmptySteps : RawRoute :=
  { distance := 100, duration := 60, geometry := [], legs := [{ steps := some [] }] }

/-- A sample mapped route step. -/
def sampleStep : RouteStep :=
  { instruction := "Turn left", distance := 100, duration := 60
    maneuver := { type := "turn", modifier := some "left" } }

/-- A sample mapped route with one step. -/
def sampleRoute : Route :=
  { id := "route-0", distance := 100, duration := 60, geometry := []
    steps := [sampleStep], isAlternative := false }

/-- A sample device location. -/
def navPoint : Coordinates := ⟨0, 0⟩

/-- A point on the equator 180 degrees of longitude away from `navPoint`. -/
def farPoint : Coordinates := ⟨180, 0⟩

/-- A concrete navigating session state: origin, destination, current
location, one fetched route which is selected, step index 0. -/
def navStateSample : AppState :=
  { nav := { origin := some navPoint
             destination := some navPoint
             currentLocation := some navPoint
             routes := [sampleRoute]
             selectedRoute := some sampleRoute
             isNavigating := true
             currentStepIndex := 0
             isDarkMode := false }
    originInput := "A", destinationInput := "B"
    isVoiceEnabled := true, showRoutes := false }

/-- A session state reached from the initial state by typing both addresses,
receiving a device location, and completing a successful search. -/
noncomputable def traceState : AppState :=
  applyEvents initialAppState
    [Event.setOrigin "A", Event.setDest "B", Event.locate navPoint,
     Event.search (GeocodeFetch.success [navPoint]) (GeocodeFetch.success [farPoint])
       (FetchResult.success (some [rawRouteSample]))]

/-! ## Theorems -/

/-- Helper: for `0 ≤ s`, truncation towards zero agrees with the floor. -/
lemma jsTrunc_eq_floor {q : ℚ} (h : 0 ≤ q) : jsTrunc q = ⌊q⌋ := if_pos h

/-- C5: for every non-negative seconds value, `formatDuration` renders whole
hours and remainder minutes — `"Hh Mmin"` when the duration is at least one
hour, otherwise minutes only — so that `formatDuration 59 = "0 min"`,
`formatDuration 90 = "1 min"` and `formatDuration 3661 = "1h 1min"`. -/
theorem formatDuration_hours_minutes (s : ℚ) (hs : 0 ≤ s) :
    ((s < 3600 → formatDuration s = toString ⌊s / 60⌋ ++ " min") ∧
     (3600 ≤ s → formatDuration s =
        toString ⌊s / 3600⌋ ++ "h " ++
          toString (⌊s / 60⌋ - 60 * ⌊s / 3600⌋) ++ "min")) ∧
    (formatDuration 59 = "0 min" ∧ formatDuration 90 = "1 min" ∧
     formatDuration 3661 = "1h 1min") := by
  have hdiv : (0:ℚ) ≤ s / 3600 := div_nonneg hs (by norm_num)
  have hmod : jsMod s 3600 = s - 3600 * (⌊s / 3600⌋ : ℚ) := by
    unfold jsMod
    rw [jsTrunc_eq_floor hdiv]
  constructor
  · constructor
    · intro h
      have h0 : ⌊s / 3600⌋ = 0 := by
        rw [Int.floor_eq_zero_iff]
        exact ⟨hdiv, by rw [div_lt_one (by norm_num)]; linarith⟩
      simp only [formatDuration, hmod, h0, Int.cast_zero, mul_zero, sub_zero,
        lt_self_iff_false, if_false, gt_iff_lt]
    · intro h
      have h1 : (0:ℤ) < ⌊s / 3600⌋ := by
        have : (1:ℚ) ≤ s / 3600 := by
          rw [le_div_iff₀ (by norm_num)]; linarith
        exact_mod_cast Int.le_floor.mpr (by exact_mod_cast this)
      have hmin : ⌊jsMod s 3600 / 60⌋ = ⌊s / 60⌋ - 60 * ⌊s / 3600⌋ := by
        rw [hmod]
        have e : (s - 3600 * (⌊s / 3600⌋ : ℚ)) / 60
            = s / 60 - ((60 * ⌊s / 3600⌋ : ℤ) : ℚ) := by push_cast; ring
        rw [e, Int.floor_sub_int]
      simp only [formatDuration, hmin, gt_iff_lt, h1, if_true]
  · refine ⟨?_, ?_, ?_⟩ <;> norm_num [formatDuration, jsMod, jsTrunc] <;> rfl

/-- C5 witness: the theorem applied at 59 and at 3661 seconds. -/
theorem formatDuration_hours_minutes_witness :
    formatDuration 59 = toString ⌊(59:ℚ) / 60⌋ ++ " min" ∧
    formatDuration 3661 =
      toString ⌊(3661:ℚ) / 3600⌋ ++ "h " ++
        toString (⌊(3661:ℚ) / 60⌋ - 60 * ⌊(3661:ℚ) / 3600⌋) ++ "min" :=
  ⟨(formatDuration_hours_minutes 59 (by norm_num)).1.1 (by norm_num),
   (formatDuration_hours_minutes 3661 (by norm_num)).1.2 (by norm_num)⟩

/-- C6: for every non-negative meters value, `formatDistance` renders integer
meters (nearest integer) with unit `"m"` below 1000, and otherwise kilometers
rounded to one decimal with unit `"km"`; in particular
`formatDistance 999 = "999 m"`, `formatDistance 1000 = "1.0 km"` and
`formatDistance 12345 = "12.3 km"`. -/
theorem formatDistance_meters_km (m : ℚ) (hm : 0 ≤ m) :
    ((m < 1000 → ∃ n : ℤ,
        formatDistance m = toString n ++ " m" ∧ |m - (n:ℚ)| ≤ 1 / 2) ∧
     (1000 ≤ m → ∃ n : ℤ, 0 ≤ n ∧
        formatDistance m = toString (n / 10) ++ "." ++ toString (n % 10) ++ " km" ∧
        |m / 1000 - (n:ℚ) / 10| ≤ 1 / 20)) ∧
    (formatDistance 999 = "999 m" ∧ formatDistance 1000 = "1.0 km" ∧
     formatDistance 12345 = "12.3 km") := by
  constructor
  · constructor
    · intro h
      refine ⟨jsRound m, ?_, ?_⟩
      · simp only [formatDistance, h, if_true]
      · unfold jsRound
        have hl := Int.floor_le (m + 1 / 2)
        have hu := Int.lt_floor_add_one (m + 1 / 2)
        rw [abs_le]
        constructor <;> push_cast at hl hu ⊢ <;> linarith
    · intro h
      refine ⟨⌊m / 1000 * 10 + 1 / 2⌋, ?_, ?_, ?_⟩
      · have : (10:ℤ) ≤ ⌊m / 1000 * 10 + 1 / 2⌋ := by
          rw [Int.le_floor]
          have : (1:ℚ) ≤ m / 1000 := by rw [le_div_iff₀ (by norm_num)]; linarith
          push_cast
          nlinarith
        linarith
      · simp only [formatDistance, not_lt.mpr h, if_false, jsToFixed1]
      · have hl := Int.floor_le (m / 1000 * 10 + 1 / 2)
        have hu := Int.lt_floor_add_one (m / 1000 * 10 + 1 / 2)
        rw [abs_le]
        constructor <;> push_cast at hl hu ⊢ <;> linarith
  · refine ⟨?_, ?_, ?_⟩ <;> norm_num [formatDistance, jsRound, jsToFixed1] <;> rfl

/-- C6 witness: the theorem applied at 999 and at 1000 meters. -/
theorem formatDistance_meters_km_witness :
    formatDistance 999 = "999 m" ∧ formatDistance 1000 = "1.0 km" :=
  ⟨(formatDistance_meters_km 999 (by norm_num)).2.1,
   (formatDistance_meters_km 1000 (by norm_num)).2.2.1⟩

/-- C10: for every meters value with `999.5 ≤ meters < 1000`,
`formatDistance` takes the sub-kilometer branch and rounds up to `"1000 m"`,
even though the input is below the 1000 m threshold. -/
theorem formatDistance_round_to_1000 (m : ℚ) (h1 : 1999 / 2 ≤ m) (h2 : m < 1000) :
    formatDistance m = "1000 m" := by
  have hr : jsRound m = 1000 := by
    unfold jsRound
    rw [Int.floor_eq_iff]
    constructor <;> push_cast <;> linarith
  simp only [formatDistance, h2, if_true, hr]
  rfl

/-- C10 witness: the theorem applied at 999.5 meters. -/
theorem formatDistance_round_to_1000_witness :
    formatDistance (1999 / 2) = "1000 m" :=
  formatDistance_round_to_1000 (1999 / 2) le_rfl (by norm_num)

/-- Helper: `atan2 0 1 = 0` (the argument of the complex number 1). -/
lemma atan2_zero_one : atan2 0 1 = 0 := by
  unfold atan2
  have h : (⟨1, 0⟩ : ℂ) = 1 := Complex.ext (by simp) (by simp)
  rw [h, Complex.arg_one]

/-- Helper: `atan2 1 0 = π / 2` (the argument of the imaginary unit). -/
lemma atan2_one_zero : atan2 1 0 = Real.pi / 2 := by
  unfold atan2
  have h : (⟨0, 1⟩ : ℂ) = Complex.I := Complex.ext (by simp) (by simp)
  rw [h, Complex.arg_I]

/-- Helper: the haversine distance from a point to itself vanishes. -/
lemma calculateDistance_self_zero (a : Coordinates) : calculateDistance a a = 0 := by
  simp only [calculateDistance, sub_self, zero_mul, zero_div, Real.sin_zero,
    mul_zero, zero_add, add_zero, Real.sqrt_zero, sub_zero, Real.sqrt_one,
    atan2_zero_one]

/-- Helper: the haversine distance across half the equator is `6371000 * π`,
which is at least 50. -/
lemma calculateDistance_far_navPoint :
    calculateDistance farPoint navPoint = 6371000 * Real.pi := by
  simp only [calculateDistance, farPoint, navPoint]
  have e1 : ((0:ℝ) - 0) * Real.pi / 180 / 2 = 0 := by ring
  have e2 : ((0:ℝ) - 180) * Real.pi / 180 / 2 = -(Real.pi / 2) := by ring
  have e3 : (0:ℝ) * Real.pi / 180 = 0 := by ring
  rw [e1, e2, e3, Real.sin_zero, Real.cos_zero, Real.sin_neg, Real.sin_pi_div_two]
  norm_num [atan2_one_zero]
  ring

/-- C7: the haversine distance is symmetric in its two arguments. -/
theorem calculateDistance_symm (a b : Coordinates) :
    calculateDistance a b = calculateDistance b a := by
  simp only [calculateDistance]
  have key :
      Real.sin ((b.lat - a.lat) * Real.pi / 180 / 2) *
          Real.sin ((b.lat - a.lat) * Real.pi / 180 / 2) +
        Real.cos (a.lat * Real.pi / 180) * Real.cos (b.lat * Real.pi / 180) *
          Real.sin ((b.lng - a.lng) * Real.pi / 180 / 2) *
          Real.sin ((b.lng - a.lng) * Real.pi / 180 / 2)
      =
      Real.sin ((a.lat - b.lat) * Real.pi / 180 / 2) *
          Real.sin ((a.lat - b.lat) * Real.pi / 180 / 2) +
        Real.cos (b.lat * Real.pi / 180) * Real.cos (a.lat * Real.pi / 180) *
          Real.sin ((a.lng - b.lng) * Real.pi / 180 / 2) *
          Real.sin ((a.lng - b.lng) * Real.pi / 180 / 2) := by
    have e1 : (a.lat - b.lat) * Real.pi / 180 / 2
        = -((b.lat - a.lat) * Real.pi / 180 / 2) := by ring
    have e2 : (a.lng - b.lng) * Real.pi / 180 / 2
        = -((b.lng - a.lng) * Real.pi / 180 / 2) := by ring
    rw [e1, e2, Real.sin_neg, Real.sin_neg]
    ring
  rw [key]

/-- C8: the haversine distance from any coordinate to itself is 0. -/
theorem calculateDistance_self (a : Coordinates) : calculateDistance a a = 0 :=
  calculateDistance_self_zero a

/-- C1 (amended): for every session state, the explicit stop action clears
origin, destination, routes and selectedRoute, sets `isNavigating := false`
and `currentStepIndex := 0`, clears the input texts and the route panel, and
preserves `currentLocation` and `isDarkMode` (which may differ from their
session-start values); applying stop twice gives the same result as once. -/
theorem handleStopNavigation_reset (s : AppState) :
    (handleStopNavigation s).nav.origin = none ∧
    (handleStopNavigation s).nav.destination = none ∧
    (handleStopNavigation s).nav.routes = [] ∧
    (handleStopNavigation s).nav.selectedRoute = none ∧
    (handleStopNavigation s).nav.isNavigating = false ∧
    (handleStopNavigation s).nav.currentStepIndex = 0 ∧
    (handleStopNavigation s).nav.currentLocation = s.nav.currentLocation ∧
    (handleStopNavigation s).nav.isDarkMode = s.nav.isDarkMode ∧
    (handleStopNavigation s).originInput = "" ∧
    (handleStopNavigation s).destinationInput = "" ∧
    (handleStopNavigation s).showRoutes = false ∧
    handleStopNavigation (handleStopNavigation s) = handleStopNavigation s :=
  ⟨rfl, rfl, rfl, rfl, rfl, rfl, rfl, rfl, rfl, rfl, rfl, rfl⟩

/-- C1 counterexample: a reachable non-idle state (addresses typed, device
located, successful search) on which stop does not restore the exact initial
`NavigationState` shape — `currentLocation` keeps its value instead of
returning to its session-start value `none`. -/
theorem handleStopNavigation_not_initial_shape :
    nonIdle traceState = true ∧
    (handleStopNavigation traceState).nav ≠ initialState := by
  refine ⟨rfl, fun h => ?_⟩
  have h' : (handleStopNavigation traceState).nav.currentLocation.isSome
      = initialState.currentLocation.isSome :=
    congrArg (fun st => st.currentLocation.isSome) h
  exact Bool.noConfusion (h' : true = false)

/-- C3: whenever at least one of the two geocode calls yields no coordinate,
`handleSearch` leaves the whole state unchanged: origin, destination, routes
and selectedRoute keep their prior values and no route fetch is committed. -/
theorem handleSearch_geocode_failure_noop (s : AppState)
    (originRes destRes : GeocodeFetch) (dirRes : FetchResult)
    (h : geocodeAddress originRes = none ∨ geocodeAddress destRes = none) :
    handleSearch s originRes destRes dirRes = s := by
  unfold handleSearch
  split
  · rfl
  · rcases h with h | h
    · rw [h]
    · rw [h]
      cases geocodeAddress originRes <;> rfl

/-- C3 witness: the theorem applied to the initial state with a failing
origin geocode. -/
theorem handleSearch_geocode_failure_noop_witness :
    handleSearch initialAppState GeocodeFetch.failure
      (GeocodeFetch.success [navPoint]) FetchResult.failure = initialAppState :=
  handleSearch_geocode_failure_noop initialAppState GeocodeFetch.failure
    (GeocodeFetch.success [navPoint]) FetchResult.failure (Or.inl rfl)

/-- Helper: on a list of mappable raw routes, `mapRoutes` succeeds and
produces, in order, one route per raw route with sequential ids starting at
`index`, the alternative flag exactly on positive indices, and non-empty
steps. -/
lemma mapRoutes_ok :
    ∀ (raws : List RawRoute) (index : Nat), raws.all routeMappable = true →
      ∃ out, mapRoutes index raws = some out ∧ out.length = raws.length ∧
        ∀ k (hk : k < out.length),
          (out.get ⟨k, hk⟩).id = "route-" ++ toString (index + k) ∧
          (out.get ⟨k, hk⟩).isAlternative = decide (0 < index + k) ∧
          (out.get ⟨k, hk⟩).steps ≠ [] := by
  intro raws
  induction raws with
  | nil =>
    intro index _
    exact ⟨[], rfl, rfl, fun k hk => absurd hk (by simp)⟩
  | cons route rest ih =>
    intro index hall
    rw [List.all_cons, Bool.and_eq_true] at hall
    obtain ⟨h1, h2⟩ := hall
    cases hleg : route.legs.head? with
    | none =>
      simp only [routeMappable, hleg] at h1
      exact Bool.noConfusion h1
    | some leg =>
      cases hsteps : leg.steps with
      | none =>
        simp only [routeMappable, hleg, hsteps] at h1
        exact Bool.noConfusion h1
      | some rawSteps =>
        have hne : rawSteps ≠ [] := by
          simpa [routeMappable, hleg, hsteps] using h1
        obtain ⟨out, hout, hlen, hprop⟩ := ih (index + 1) h2
        refine ⟨{ id := "route-" ++ toString index
                  distance := route.distance
                  duration := route.duration
                  geometry := route.geometry
                  steps := rawSteps.map mapStep
                  isAlternative := decide (index > 0) } :: out, ?_, ?_, ?_⟩
        · simp only [mapRoutes, mapRoute, hleg, hsteps, hout]
        · simp [hlen]
        · intro k hk
          cases k with
          | zero =>
            refine ⟨by simp, by simp, ?_⟩
            simp only [List.get]
            simp only [ne_eq, List.map_eq_nil_iff]
            exact hne
          | succ k =>
            have hk' : k < out.length := by simpa using hk
            have := hprop k hk'
            simp only [List.get]
            refine ⟨?_, ?_, this.2.2⟩
            · have e : index + 1 + k = index + (k + 1) := by omega
              rw [← e]; exact this.1
            · have e : index + 1 + k = index + (k + 1) := by omega
              rw [← e]; exact this.2.1

/-- C2 (amended): for every directions response whose routes array has
`N ≥ 1` elements, each with a first leg carrying a non-empty steps array,
`getDirections` returns exactly `N` routes in order with ids
`"route-0"` … `"route-(N-1)"`, `isAlternative` false exactly at index 0, and
non-empty steps on every returned route; an empty routes array, an absent
routes field, or a transport/parse error yields the empty sequence. -/
theorem getDirections_wellformed (raws : List RawRoute)
    (hne : raws ≠ []) (hall : raws.all routeMappable = true) :
    ((getDirections (FetchResult.success (some raws))).length = raws.length ∧
     ∀ k (hk : k < (getDirections (FetchResult.success (some raws))).length),
       ((getDirections (FetchResult.success (some raws))).get ⟨k, hk⟩).id
           = "route-" ++ toString k ∧
       ((getDirections (FetchResult.success (some raws))).get ⟨k, hk⟩).isAlternative
           = decide (0 < k) ∧
       ((getDirections (FetchResult.success (some raws))).get ⟨k, hk⟩).steps ≠ []) ∧
    (getDirections FetchResult.failure = [] ∧
     getDirections (FetchResult.success none) = [] ∧
     getDirections (FetchResult.success (some [])) = []) := by
  obtain ⟨out, hout, hlen, hprop⟩ := mapRoutes_ok raws 0 hall
  have hpos : 0 < raws.length := List.length_pos.mpr hne
  have hdir : getDirections (FetchResult.success (some raws)) = out := by
    simp only [getDirections, if_pos hpos, hout]
  refine ⟨?_, rfl, rfl, rfl⟩
  rw [hdir]
  refine ⟨hlen, fun k hk => ?_⟩
  have := hprop k hk
  simpa using this

/-- C2 witness: the theorem applied to a one-route response. -/
theorem getDirections_wellformed_witness :
    (getDirections (FetchResult.success (some [rawRouteSample]))).length
      = [rawRouteSample].length :=
  (getDirections_wellformed [rawRouteSample] (by simp) rfl).1.1

/-- C2 counterexample: the claim as stated fails on the code.  A one-route
response whose route lacks a first leg yields 0 routes, not 1; and a
one-route response whose first leg carries an empty steps array yields a
route whose steps list is empty. -/
theorem getDirections_counterexample :
    [rawRouteNoLegs].length = 1 ∧
    getDirections (FetchResult.success (some [rawRouteNoLegs])) = [] ∧
    (getDirections (FetchResult.success (some [rawRouteEmptySteps]))).all
        (fun route => !route.steps.isEmpty) = false :=
  ⟨rfl, rfl, rfl⟩

/-- Helper: a raw route that lacks a first leg or whose first leg lacks a
steps array makes `mapRoutes` fail at any index. -/
lemma mapRoutes_none :
    ∀ (raws : List RawRoute) (index : Nat),
      (∃ route ∈ raws, route.legs.head? = none ∨
        ∃ leg, route.legs.head? = some leg ∧ leg.steps = none) →
      mapRoutes index raws = none := by
  intro raws
  induction raws with
  | nil =>
    intro index h
    obtain ⟨route, hmem, _⟩ := h
    exact absurd hmem (List.not_mem_nil route)
  | cons route rest ih =>
    intro index h
    obtain ⟨bad, hmem, hbad⟩ := h
    rcases List.mem_cons.mp hmem with heq | hmem'
    · subst heq
      rcases hbad with hleg | ⟨leg, hleg, hsteps⟩
      · simp only [mapRoutes, mapRoute, hleg]
      · simp only [mapRoutes, mapRoute, hleg, hsteps]
    · cases hmr : mapRoute index route with
      | none => simp only [mapRoutes, hmr]
      | some mapped =>
        have : mapRoutes (index + 1) rest = none := ih (index + 1) ⟨bad, hmem', hbad⟩
        simp only [mapRoutes, hmr, this]

/-- C9: one malformed route (no first leg, or no steps array on it) makes
`getDirections` return the empty sequence rather than a partial list — all
routes are discarded, including well-formed ones that precede it. -/
theorem getDirections_malformed_discards (raws : List RawRoute)
    (h : ∃ route ∈ raws, route.legs.head? = none ∨
      ∃ leg, route.legs.head? = some leg ∧ leg.steps = none) :
    getDirections (FetchResult.success (some raws)) = [] := by
  have hpos : 0 < raws.length := by
    obtain ⟨bad, hmem, -⟩ := h
    exact List.length_pos.mpr (List.ne_nil_of_mem hmem)
  simp only [getDirections, if_pos hpos, mapRoutes_none raws 0 h]

/-- C9 witness: a well-formed route followed by a route without legs is
discarded wholesale. -/
theorem getDirections_malformed_discards_witness :
    getDirections (FetchResult.success (some [rawRouteSample, rawRouteNoLegs])) = [] :=
  getDirections_malformed_discards [rawRouteSample, rawRouteNoLegs]
    ⟨rawRouteNoLegs, by simp, Or.inl rfl⟩

/-- C4: while navigating with origin, destination and a current step set, a
location update whose distance to the destination is below 50 meters performs
exactly the reset of the explicit stop action (applied to the
location-updated state); an update at 50 meters or more only stores the new
location and leaves the session navigating. -/
theorem watchUpdate_arrival (s : AppState) (newLocation dest : Coordinates)
    (route : Route)
    (hnav : s.nav.isNavigating = true)
    (horig : s.nav.origin.isSome = true)
    (hdest : s.nav.destination = some dest)
    (hsel : s.nav.selectedRoute = some route)
    (hstep : (route.steps.get? s.nav.currentStepIndex).isSome = true) :
    (calculateDistance newLocation dest < 50 →
      watchUpdate s newLocation =
        handleStopNavigation
          { s with nav := { s.nav with currentLocation := some newLocation } }) ∧
    (50 ≤ calculateDistance newLocation dest →
      watchUpdate s newLocation =
        { s with nav := { s.nav with currentLocation := some newLocation } } ∧
      (watchUpdate s newLocation).nav.isNavigating = true) := by
  obtain ⟨o, ho⟩ := Option.isSome_iff_exists.mp horig
  obtain ⟨st, hst⟩ := Option.isSome_iff_exists.mp hstep
  constructor
  · intro hd
    simp only [watchUpdate, ho, hdest, hsel, hst]
    rw [if_pos hd]
  · intro hd
    have hcond : ¬calculateDistance newLocation dest < 50 := not_lt.mpr hd
    constructor
    · simp only [watchUpdate, ho, hdest, hsel, hst]
      rw [if_neg hcond]
    · simp only [watchUpdate, ho, hdest, hsel, hst]
      rw [if_neg hcond]
      exact hnav

/-- C4 witness: a concrete navigating state; an update at the destination
itself (distance 0) resets like stop, and an update half the equator away
(distance `6371000 * π ≥ 50`) leaves the session navigating. -/
theorem watchUpdate_arrival_witness :
    watchUpdate navStateSample navPoint =
      handleStopNavigation
        { navStateSample with
          nav := { navStateSample.nav with currentLocation := some navPoint } } ∧
    (watchUpdate navStateSample farPoint).nav.isNavigating = true := by
  constructor
  · exact (watchUpdate_arrival navStateSample navPoint navPoint sampleRoute
      rfl rfl rfl rfl rfl).1
      (by rw [calculateDistance_self_zero]; norm_num)
  · exact ((watchUpdate_arrival navStateSample farPoint navPoint sampleRoute
      rfl rfl rfl rfl rfl).2
      (by rw [calculateDistance_far_navPoint]; nlinarith [Real.pi_gt_three])).2

end Tumaps
